import Mathlib

/-!
Verification development for the UvWidgetPro repository.

The numeric code operates on Python floats; it is embedded here over the
real numbers, with Python's `**` on a non-negative base and real exponent
embedded as `Real.rpow`, `math.cos`/`math.sin` as `Real.cos`/`Real.sin`,
`math.sqrt` as `Real.sqrt`, and `round(x, 1)` as rounding of `x * 10` to the
nearest integer divided by `10` (Python rounds exact halves to even; the
Mathlib `round` rounds halves up — the two agree except at exact ties,
which no statement below depends on).

The engine `calculate_uv_index_with_clouds` in `src/uv_index_calculator.py`
reads the wall clock internally (`datetime.datetime.now()`) and obtains the
sun's altitude from the external `ephem` library at that instant.  In the
embedding these two hidden inputs are made explicit: `now : PyDateTime` is
the value of the internal clock read, and `sun_alt : ℝ` stands for
`math.degrees(sun.alt)`, the ephem sun-altitude output at
`(latitude, longitude, now)` (ephem altitudes lie in `[-90, 90]` degrees).
-/

/-- The fields of a Python `datetime` value that the source reads:
`current_time.year`, `current_time.month`, `current_time.timetuple().tm_yday`,
`current_time.hour`, `current_time.minute`. -/
structure PyDateTime where
  year : ℕ
  month : ℕ
  tm_yday : ℕ
  hour : ℕ
  minute : ℕ

/-- Embedding of `math.radians`. -/
noncomputable def radians (d : ℝ) : ℝ := d * Real.pi / 180

/-- The fixed ceiling `uv_max = 11.0` of `calculate_base_uv_index`. -/
noncomputable def uv_max : ℝ := 11.0

/-- The fixed exponent `alpha = 1.35` of `calculate_base_uv_index`. -/
noncomputable def alpha : ℝ := 1.35

/-- The fixed coefficient `0.15` used by `calculate_base_uv_index` in its
high-zenith (`solar_zenith_angle >= 75`) branch. -/
noncomputable def high_zenith_coefficient : ℝ := 0.15

/-- Embedding of `year_length = 366 if current_time.year % 4 == 0 else 365`. -/
noncomputable def year_length (year : ℕ) : ℝ := if year % 4 = 0 then 366 else 365

/-- Embedding of the seasonal factor of `calculate_base_uv_index`:
`0.8 + 0.5 * math.sin((day_of_year / year_length) * 2 * math.pi - math.pi/2)`. -/
noncomputable def seasonal_adjustment (t : PyDateTime) : ℝ :=
  0.8 + 0.5 * Real.sin ((t.tm_yday / year_length t.year) * 2 * Real.pi - Real.pi / 2)

/-- Embedding of `hours_since_midnight = current_time.hour + current_time.minute / 60`. -/
noncomputable def hours_since_midnight (t : PyDateTime) : ℝ :=
  (t.hour : ℝ) + (t.minute : ℝ) / 60

/-- Embedding of the time-of-day factor of `calculate_base_uv_index` on the
daytime path (the function has already returned when `solar_zenith_angle >= 90`,
so the duplicated night test inside the source's time-adjustment block is dead
code there): a cosine-squared bell around 12.5 h, zero beyond 6 h offset. -/
noncomputable def time_adjustment (t : PyDateTime) : ℝ :=
  if |hours_since_midnight t - 12.5| > 6 then 0
  else Real.cos (|hours_since_midnight t - 12.5| * Real.pi / 6) ^ 2

/-- Embedding of `altitude_adjustment = 1 + (200 / 1000) * 0.1`. -/
noncomputable def altitude_adjustment : ℝ := 1 + (200 / 1000) * 0.1

/-- Embedding of `calculate_base_uv_index` from `src/uv_index_calculator.py`.
`sun_alt` stands for `math.degrees(sun.alt)`, the output of the external
`ephem` library at `(latitude, longitude, current_time)`; the function uses
latitude and longitude only through that value. -/
noncomputable def calculate_base_uv_index (sun_alt : ℝ) (t : PyDateTime) : ℝ :=
  if 90 - sun_alt ≥ 90 then 0
  else
    (if 90 - sun_alt < 75 then
      uv_max * Real.cos (radians (90 - sun_alt)) ^ alpha *
        seasonal_adjustment t * time_adjustment t
    else
      uv_max * high_zenith_coefficient * ((90 - (90 - sun_alt)) / 15) *
        seasonal_adjustment t * time_adjustment t) * altitude_adjustment

/-- Python's substring containment `needle in haystack`, on character lists:
true iff `needle` occurs contiguously inside `haystack`. -/
def hasSubstr (needle : List Char) : List Char → Bool
  | [] => needle.isEmpty
  | c :: rest => needle.isPrefixOf (c :: rest) || hasSubstr needle rest

/-- Python's `term in weather_description` on strings. -/
def pyContains (haystack needle : String) : Bool :=
  hasSubstr needle.toList haystack.toList

/-- ASCII lower-casing of one character, the behaviour of Python's
`str.lower()` on the ASCII inputs the keyword tables consist of. -/
def lowerChar (c : Char) : Char :=
  if 'A' ≤ c ∧ c ≤ 'Z' then Char.ofNat (c.toNat + 32) else c

/-- Embedding of `weather_description.lower()` (ASCII range). -/
def pyLower (s : String) : String := String.mk (s.toList.map lowerChar)

/-- The precipitation/storm keyword list of `calculate_cloud_adjustment`. -/
def storm_terms : List String := ["rain", "shower", "thunderstorm", "storm"]

/-- The overcast/fog/mist keyword list of `calculate_cloud_adjustment`. -/
def overcast_terms : List String := ["overcast", "fog", "mist"]

/-- The partial-cloud keyword list of `calculate_cloud_adjustment`. -/
def partly_cloud_terms : List String := ["partly cloudy", "scattered clouds"]

/-- Embedding of `any(term in weather_description for term in terms)`. -/
def matchesAny (desc : String) (terms : List String) : Bool :=
  terms.any fun t => pyContains desc t

/-- Embedding of the `type_multiplier` if/elif chain of
`calculate_cloud_adjustment`, applied to the lower-cased description. -/
noncomputable def type_multiplier (weather_description : String) : ℝ :=
  if matchesAny (pyLower weather_description) storm_terms then 0.5
  else if matchesAny (pyLower weather_description) overcast_terms then 0.7
  else if matchesAny (pyLower weather_description) partly_cloud_terms then 0.9
  else 1.0

/-- Embedding of `calculate_cloud_adjustment` from `src/uv_index_calculator.py`. -/
noncomputable def calculate_cloud_adjustment
    (cloud_cover_percent : ℝ) (weather_description : String) : ℝ :=
  max 0.1 (min 1.0 ((1 - (cloud_cover_percent / 100) ^ (0.6 : ℝ)) *
    type_multiplier weather_description))

/-- Embedding of the `winter_factor` if/elif chain of
`calculate_regional_adjustment` (`month in [12, 1, 2]`, `month in [3, 11]`). -/
noncomputable def winter_factor (month : ℕ) : ℝ :=
  if month = 12 ∨ month = 1 ∨ month = 2 then 0.7
  else if month = 3 ∨ month = 11 then 0.85
  else 1.0

/-- The fixed `great_lakes_factor = 0.95` humidity/air-quality constant of
`calculate_regional_adjustment`. -/
noncomputable def great_lakes_factor : ℝ := 0.95

/-- Embedding of the planar degree distance
`math.sqrt((latitude - 42.3314) ** 2 + (longitude - (-83.0458)) ** 2)`. -/
noncomputable def distance_to_detroit_center (latitude longitude : ℝ) : ℝ :=
  Real.sqrt ((latitude - 42.3314) ^ 2 + (longitude - (-83.0458)) ^ 2)

/-- Embedding of the `urban_factor` if/elif chain of
`calculate_regional_adjustment`. -/
noncomputable def urban_factor (latitude longitude : ℝ) : ℝ :=
  if distance_to_detroit_center latitude longitude < 0.5 then 0.85
  else if distance_to_detroit_center latitude longitude < 1.0 then 0.9
  else 1.0

/-- Embedding of the `temp_factor` branch of `calculate_regional_adjustment`
(`None` temperature gives factor 1.0). -/
noncomputable def temp_factor : Option ℝ → ℝ
  | some temperature =>
      if temperature < 5 then 0.85 else if temperature < 15 then 0.9 else 1.0
  | none => 1.0

/-- Embedding of `calculate_regional_adjustment` from
`src/uv_index_calculator.py`: the product of the four sub-factors. -/
noncomputable def calculate_regional_adjustment
    (latitude longitude : ℝ) (t : PyDateTime) (temperature : Option ℝ) : ℝ :=
  winter_factor t.month * great_lakes_factor * urban_factor latitude longitude *
    temp_factor temperature

/-- Embedding of Python's `round(x, 1)` (see the file comment on tie
behaviour). -/
noncomputable def round1 (x : ℝ) : ℝ := (round (x * 10) : ℤ) / 10

/-- Embedding of `calculate_uv_index_with_clouds` from
`src/uv_index_calculator.py`.  The source reads the clock itself
(`current_time = datetime.datetime.now()`) and feeds it, with the
coordinates, to ephem; `now` is that internal clock value and `sun_alt` is
ephem's sun altitude at `(latitude, longitude, now)`.  Latitude and
longitude reach the result through `sun_alt` and through
`calculate_regional_adjustment`. -/
noncomputable def calculate_uv_index_with_clouds (sun_alt : ℝ) (now : PyDateTime)
    (latitude longitude cloud_cover_percent : ℝ) (temperature : Option ℝ)
    (weather_description : String) : ℝ :=
  max 0 (round1 (calculate_base_uv_index sun_alt now *
    calculate_cloud_adjustment cloud_cover_percent weather_description *
    calculate_regional_adjustment latitude longitude now temperature))

/-- Embedding of `get_uv_color` from `src/app.py`. -/
noncomputable def get_uv_color (uv_index : ℝ) : String :=
  if uv_index < 3 then "green"
  else if uv_index < 6 then "yellow"
  else if uv_index < 8 then "orange"
  else if uv_index < 11 then "red"
  else "purple"

/-- Embedding of `get_uv_category` from `src/app.py`. -/
noncomputable def get_uv_category (uv_index : ℝ) : String :=
  if uv_index < 3 then "Low"
  else if uv_index < 6 then "Moderate"
  else if uv_index < 8 then "High"
  else if uv_index < 11 then "Very High"
  else "Extreme"

/-- Modelled from the spec: the 12-entry month-indexed average UV table of
the engine's geometry-failure fallback.  The fallback (`try/except` around
the solar geometry and this table) is not present in
`src/uv_index_calculator.py`; `src/app.py` imports the engine from a module
`uv_calculator` that is not among the provided sources, so the table's
concrete values are not recoverable.  Following the spec (12 fixed values,
one per calendar month, plausible for the deployment region, result in
`[0, 12]`), a representative Michigan month-average profile is used; every
statement proved about it relies only on each entry lying in `[0, 12]`. -/
noncomputable def month_average_uv_table (month : ℕ) : ℝ :=
  if month = 1 then 1 else if month = 2 then 2
  else if month = 3 then 4 else if month = 4 then 6
  else if month = 5 then 8 else if month = 6 then 9
  else if month = 7 then 9 else if month = 8 then 8
  else if month = 9 then 6 else if month = 10 then 4
  else if month = 11 then 2 else 1

/-- Modelled from the spec: the simplified cloud/rain penalty that dampens
the month-average fallback value — a linear cloud damping (full cover
halves the value) and a further halving when the description names
rain/storm conditions.  Each factor lies in `(0, 1]` on cloud cover in
`[0, 100]`, which is all the proofs below use. -/
noncomputable def simplified_cloud_rain_penalty
    (cloud_cover_percent : ℝ) (weather_description : String) : ℝ :=
  (1 - (cloud_cover_percent / 100) * 0.5) *
    (if matchesAny (pyLower weather_description) storm_terms then 0.5 else 1)

/-- Modelled from the spec: the engine boundary with the documented failure
policy.  The solar geometry outcome is an explicit tagged value
(`some sun_alt` on success, `none` when the geometry computation fails,
e.g. latitude 999); on failure the engine returns the dampened
month-average value instead of propagating the exception, and on success it
behaves as `calculate_uv_index_with_clouds`.  Totality of this function in
the `none` case is the embedded form of "never throws past the boundary". -/
noncomputable def calculate_uv_index_with_clouds_total
    (geometry : Option ℝ) (now : PyDateTime)
    (latitude longitude cloud_cover_percent : ℝ) (temperature : Option ℝ)
    (weather_description : String) : ℝ :=
  match geometry with
  | some sun_alt =>
      calculate_uv_index_with_clouds sun_alt now latitude longitude
        cloud_cover_percent temperature weather_description
  | none =>
      month_average_uv_table now.month *
        simplified_cloud_rain_penalty cloud_cover_percent weather_description

theorem winter_factor_bounds (m : ℕ) : 0 < winter_factor m ∧ winter_factor m ≤ 1 := by
  unfold winter_factor
  split_ifs <;> norm_num

theorem urban_factor_bounds (lat lon : ℝ) :
    0 < urban_factor lat lon ∧ urban_factor lat lon ≤ 1 := by
  unfold urban_factor
  split_ifs <;> norm_num

theorem temp_factor_bounds (temp : Option ℝ) :
    0 < temp_factor temp ∧ temp_factor temp ≤ 1 := by
  cases temp with
  | none =>
      simp only [temp_factor]
      norm_num
  | some x =>
      simp only [temp_factor]
      split_ifs <;> norm_num

theorem regional_adjustment_bounds (lat lon : ℝ) (t : PyDateTime) (temp : Option ℝ) :
    0 < calculate_regional_adjustment lat lon t temp ∧
      calculate_regional_adjustment lat lon t temp ≤ 0.95 := by
  obtain ⟨hw0, hw1⟩ := winter_factor_bounds t.month
  obtain ⟨hu0, hu1⟩ := urban_factor_bounds lat lon
  obtain ⟨ht0, ht1⟩ := temp_factor_bounds temp
  unfold calculate_regional_adjustment great_lakes_factor
  constructor
  · positivity
  · have h2 : winter_factor t.month * urban_factor lat lon * temp_factor temp ≤ 1 :=
      mul_le_one₀ (mul_le_one₀ hw1 hu0.le hu1) ht0.le ht1
    nlinarith [h2]

/-- C9: for every latitude, longitude, instant and optional temperature, the
regional adjustment factor is the product of the month-based winter factor,
the fixed humidity/air-quality constant, the degree-distance urban factor and
the temperature factor, and this product lies in the interval (0, 1]. -/
theorem regional_adjustment_product_and_range
    (lat lon : ℝ) (t : PyDateTime) (temp : Option ℝ) :
    calculate_regional_adjustment lat lon t temp =
      winter_factor t.month * great_lakes_factor * urban_factor lat lon *
        temp_factor temp ∧
    0 < calculate_regional_adjustment lat lon t temp ∧
    calculate_regional_adjustment lat lon t temp ≤ 1 := by
  obtain ⟨h0, h1⟩ := regional_adjustment_bounds lat lon t temp
  exact ⟨rfl, h0, by linarith⟩

/-- C10: the regional adjustment factor never reaches 1: the unconditional
humidity/air-quality constant 0.95 multiplies sub-factors that are each at
most 1, so the factor is at most 0.95 and hence strictly below 1. -/
theorem regional_adjustment_lt_one
    (lat lon : ℝ) (t : PyDateTime) (temp : Option ℝ) :
    calculate_regional_adjustment lat lon t temp ≤ 0.95 ∧
      calculate_regional_adjustment lat lon t temp < 1 := by
  obtain ⟨h0, h1⟩ := regional_adjustment_bounds lat lon t temp
  exact ⟨h1, by linarith⟩

theorem type_multiplier_bounds (d : String) :
    0 < type_multiplier d ∧ type_multiplier d ≤ 1 := by
  unfold type_multiplier
  split_ifs <;> norm_num

/-- C7: for cloud cover in [0, 100] and any description string, the cloud
adjustment factor lies in (0, 1], is clamped below at 0.1 and is never zero;
at 100 percent cover it is still strictly positive. -/
theorem cloud_adjustment_factor_range (c : ℝ) (d : String)
    (h0 : 0 ≤ c) (h1 : c ≤ 100) :
    0.1 ≤ calculate_cloud_adjustment c d ∧
    0 < calculate_cloud_adjustment c d ∧
    calculate_cloud_adjustment c d ≤ 1 ∧
    calculate_cloud_adjustment c d ≠ 0 ∧
    0 < calculate_cloud_adjustment 100 d := by
  have hfloor : ∀ x : ℝ, (0.1 : ℝ) ≤ max 0.1 (min 1.0 x) := fun x => le_max_left _ _
  have hceil : ∀ x : ℝ, max 0.1 (min 1.0 x) ≤ 1 := fun x =>
    max_le (by norm_num) ((min_le_left _ _).trans (by norm_num))
  refine ⟨hfloor _, lt_of_lt_of_le (by norm_num) (hfloor _), hceil _, ?_, ?_⟩
  · exact ne_of_gt (lt_of_lt_of_le (by norm_num) (hfloor _))
  · exact lt_of_lt_of_le (by norm_num) (hfloor _)

theorem cloud_adjustment_factor_range_witness :
    (0 : ℝ) ≤ 100 ∧ (100 : ℝ) ≤ 100 ∧
    0.1 ≤ calculate_cloud_adjustment 100 "thunderstorm" ∧
    calculate_cloud_adjustment 100 "thunderstorm" ≠ 0 := by
  have h := cloud_adjustment_factor_range 100 "thunderstorm" (by norm_num) (by norm_num)
  exact ⟨by norm_num, by norm_num, h.1, h.2.2.2.1⟩

/-- C8: exactly one keyword bucket applies to a description, first match wins
in the fixed priority storm-class, then overcast-class, then
partial-cloud-class: a storm/precipitation term forces multiplier 0.5
regardless of other matches, otherwise an overcast/fog/mist term gives 0.7,
otherwise a partial-cloud term gives 0.9, otherwise the multiplier is 1.0. -/
theorem cloud_keyword_bucket_priority (d : String) :
    (matchesAny (pyLower d) storm_terms = true → type_multiplier d = 0.5) ∧
    (matchesAny (pyLower d) storm_terms = false →
      matchesAny (pyLower d) overcast_terms = true → type_multiplier d = 0.7) ∧
    (matchesAny (pyLower d) storm_terms = false →
      matchesAny (pyLower d) overcast_terms = false →
      matchesAny (pyLower d) partly_cloud_terms = true → type_multiplier d = 0.9) ∧
    (matchesAny (pyLower d) storm_terms = false →
      matchesAny (pyLower d) overcast_terms = false →
      matchesAny (pyLower d) partly_cloud_terms = false → type_multiplier d = 1.0) := by
  unfold type_multiplier
  refine ⟨fun hs => ?_, fun hs ho => ?_, fun hs ho hp => ?_, fun hs ho hp => ?_⟩
  · simp [hs]
  · simp [hs, ho]
  · simp [hs, ho, hp]
  · simp [hs, ho, hp]

theorem cloud_keyword_bucket_priority_witness :
    matchesAny (pyLower "Heavy Rain and fog") storm_terms = true ∧
    matchesAny (pyLower "Heavy Rain and fog") overcast_terms = true ∧
    type_multiplier "Heavy Rain and fog" = 0.5 :=
  ⟨by decide, by decide,
    (cloud_keyword_bucket_priority "Heavy Rain and fog").1 (by decide)⟩

/-- C3: the risk classifier is total on non-negative inputs and its bands
partition the non-negative reals with upper-bound-exclusive thresholds in
ascending order; category and colour agree band by band, and the boundary
values 3, 6, 8 and 11 each fall in the higher band. -/
theorem uv_risk_classifier_partition (v : ℝ) (h : 0 ≤ v) :
    (get_uv_category v = "Low" ↔ v < 3) ∧
    (get_uv_category v = "Moderate" ↔ 3 ≤ v ∧ v < 6) ∧
    (get_uv_category v = "High" ↔ 6 ≤ v ∧ v < 8) ∧
    (get_uv_category v = "Very High" ↔ 8 ≤ v ∧ v < 11) ∧
    (get_uv_category v = "Extreme" ↔ 11 ≤ v) ∧
    (get_uv_color v = "green" ↔ get_uv_category v = "Low") ∧
    (get_uv_color v = "yellow" ↔ get_uv_category v = "Moderate") ∧
    (get_uv_color v = "orange" ↔ get_uv_category v = "High") ∧
    (get_uv_color v = "red" ↔ get_uv_category v = "Very High") ∧
    (get_uv_color v = "purple" ↔ get_uv_category v = "Extreme") ∧
    get_uv_category (3 : ℝ) = "Moderate" ∧ get_uv_category (6 : ℝ) = "High" ∧
    get_uv_category (8 : ℝ) = "Very High" ∧ get_uv_category (11 : ℝ) = "Extreme" := by
  have hb1 : get_uv_category (3 : ℝ) = "Moderate" := by norm_num [get_uv_category]
  have hb2 : get_uv_category (6 : ℝ) = "High" := by norm_num [get_uv_category]
  have hb3 : get_uv_category (8 : ℝ) = "Very High" := by norm_num [get_uv_category]
  have hb4 : get_uv_category (11 : ℝ) = "Extreme" := by norm_num [get_uv_category]
  refine ⟨?_, ?_, ?_, ?_, ?_, ?_, ?_, ?_, ?_, ?_, hb1, hb2, hb3, hb4⟩ <;>
  · simp only [get_uv_category, get_uv_color]
    split_ifs with a b c d <;> try simp_all
    all_goals
      first
        | rfl
        | linarith
        | (constructor <;> linarith)
        | (intro hx; linarith)
        | (rintro ⟨hx, hy⟩; linarith)
        | (exact ⟨by linarith, by linarith⟩)

theorem uv_risk_classifier_partition_witness :
    (0 : ℝ) ≤ 7.5 ∧ (get_uv_category (7.5 : ℝ) = "High" ↔ 6 ≤ (7.5 : ℝ) ∧ (7.5 : ℝ) < 8) :=
  ⟨by norm_num, (uv_risk_classifier_partition 7.5 (by norm_num)).2.2.1⟩

theorem round1_zero : round1 0 = 0 := by
  unfold round1
  norm_num

/-- C4: with the sun at or below the horizon (solar zenith angle at least 90
degrees), the base model returns 0, and the engine consequently returns
exactly 0 for every cloud cover, temperature and description. -/
theorem uv_zero_when_sun_below_horizon (sun_alt : ℝ) (t : PyDateTime)
    (lat lon cloud : ℝ) (temp : Option ℝ) (d : String)
    (h : 90 - sun_alt ≥ 90) :
    calculate_base_uv_index sun_alt t = 0 ∧
    calculate_uv_index_with_clouds sun_alt t lat lon cloud temp d = 0 := by
  have hbase : calculate_base_uv_index sun_alt t = 0 := by
    unfold calculate_base_uv_index
    rw [if_pos h]
  refine ⟨hbase, ?_⟩
  unfold calculate_uv_index_with_clouds
  rw [hbase, zero_mul, zero_mul, round1_zero, max_self]

theorem uv_zero_when_sun_below_horizon_witness :
    (90 : ℝ) - (-10) ≥ 90 ∧
    calculate_uv_index_with_clouds (-10) ⟨2025, 1, 15, 23, 0⟩ 42.3834 (-83.3527)
      50 (some 20) "overcast" = 0 :=
  ⟨by norm_num,
   (uv_zero_when_sun_below_horizon (-10) ⟨2025, 1, 15, 23, 0⟩ 42.3834 (-83.3527)
      50 (some 20) "overcast" (by norm_num)).2⟩

/-- C6: the zenith-angle attenuation of the base model branches exactly at 75
degrees: below 75 it is the cosine of the zenith angle raised to the fixed
exponent alpha = 1.35, which lies in [1.2, 1.35]; from 75 up to 90 it is the
linear-in-(90 - zenith) fallback scaled by the fixed coefficient 0.15, which
lies in [0.15, 0.2]. -/
theorem base_uv_zenith_attenuation_branches (sun_alt : ℝ) (t : PyDateTime) :
    (1.2 ≤ alpha ∧ alpha ≤ 1.35) ∧
    (0.15 ≤ high_zenith_coefficient ∧ high_zenith_coefficient ≤ 0.2) ∧
    (90 - sun_alt < 75 →
      calculate_base_uv_index sun_alt t =
        uv_max * Real.cos (radians (90 - sun_alt)) ^ alpha *
          seasonal_adjustment t * time_adjustment t * altitude_adjustment) ∧
    (75 ≤ 90 - sun_alt → 90 - sun_alt < 90 →
      calculate_base_uv_index sun_alt t =
        uv_max * high_zenith_coefficient * ((90 - (90 - sun_alt)) / 15) *
          seasonal_adjustment t * time_adjustment t * altitude_adjustment) := by
  refine ⟨⟨by norm_num [alpha], le_refl _⟩,
    ⟨le_refl _, by norm_num [high_zenith_coefficient]⟩, ?_, ?_⟩
  · intro h75
    unfold calculate_base_uv_index
    rw [if_neg (not_le.2 (by linarith)), if_pos h75]
  · intro h75 h90
    unfold calculate_base_uv_index
    rw [if_neg (not_le.2 h90), if_neg (not_lt.2 h75)]

theorem base_uv_zenith_attenuation_branches_witness :
    ((90 : ℝ) - 50 < 75 ∧
      calculate_base_uv_index 50 ⟨2025, 7, 182, 12, 30⟩ =
        uv_max * Real.cos (radians (90 - 50)) ^ alpha *
          seasonal_adjustment ⟨2025, 7, 182, 12, 30⟩ *
          time_adjustment ⟨2025, 7, 182, 12, 30⟩ * altitude_adjustment) ∧
    ((75 : ℝ) ≤ 90 - 5 ∧ (90 : ℝ) - 5 < 90 ∧
      calculate_base_uv_index 5 ⟨2025, 7, 182, 12, 30⟩ =
        uv_max * high_zenith_coefficient * ((90 - (90 - 5)) / 15) *
          seasonal_adjustment ⟨2025, 7, 182, 12, 30⟩ *
          time_adjustment ⟨2025, 7, 182, 12, 30⟩ * altitude_adjustment) :=
  ⟨⟨by norm_num,
    (base_uv_zenith_attenuation_branches 50 ⟨2025, 7, 182, 12, 30⟩).2.2.1 (by norm_num)⟩,
   ⟨by norm_num, by norm_num,
    (base_uv_zenith_attenuation_branches 5 ⟨2025, 7, 182, 12, 30⟩).2.2.2
      (by norm_num) (by norm_num)⟩⟩

theorem seasonal_adjustment_ge (t : PyDateTime) : 0.3 ≤ seasonal_adjustment t := by
  unfold seasonal_adjustment
  nlinarith [Real.neg_one_le_sin
    ((t.tm_yday / year_length t.year) * 2 * Real.pi - Real.pi / 2)]

theorem time_adjustment_nonneg (t : PyDateTime) : 0 ≤ time_adjustment t := by
  unfold time_adjustment
  split_ifs
  · exact le_refl 0
  · exact sq_nonneg _

theorem altitude_adjustment_nonneg : 0 ≤ altitude_adjustment := by
  norm_num [altitude_adjustment]

theorem calculate_base_uv_index_nonneg (sun_alt : ℝ) (t : PyDateTime)
    (halt : sun_alt ≤ 90) : 0 ≤ calculate_base_uv_index sun_alt t := by
  have hseas : (0 : ℝ) ≤ seasonal_adjustment t := le_trans (by norm_num) (seasonal_adjustment_ge t)
  have htime := time_adjustment_nonneg t
  have huv : (0 : ℝ) ≤ uv_max := by norm_num [uv_max]
  unfold calculate_base_uv_index
  split_ifs with h90 h75
  · exact le_refl 0
  · have hz0 : 0 ≤ 90 - sun_alt := by linarith
    have hcos : 0 ≤ Real.cos (radians (90 - sun_alt)) := by
      apply Real.cos_nonneg_of_mem_Icc
      constructor
      · have : 0 ≤ radians (90 - sun_alt) := by
          unfold radians
          positivity
        nlinarith [Real.pi_pos]
      · unfold radians
        nlinarith [Real.pi_pos]
    have hpow : 0 ≤ Real.cos (radians (90 - sun_alt)) ^ alpha := Real.rpow_nonneg hcos _
    have := mul_nonneg (mul_nonneg (mul_nonneg (mul_nonneg huv hpow) hseas) htime)
      altitude_adjustment_nonneg
    linarith
  · have hlin : 0 ≤ (90 - (90 - sun_alt)) / 15 := by
      push_neg at h90
      nlinarith
    have hc : (0 : ℝ) ≤ high_zenith_coefficient := by norm_num [high_zenith_coefficient]
    have := mul_nonneg (mul_nonneg (mul_nonneg (mul_nonneg (mul_nonneg huv hc) hlin) hseas)
      htime) altitude_adjustment_nonneg
    linarith

theorem round1_mono {x y : ℝ} (h : x ≤ y) : round1 x ≤ round1 y := by
  unfold round1
  have hr : round (x * 10) ≤ round (y * 10) := by
    rw [round_eq, round_eq]
    exact Int.floor_mono (by linarith)
  have hc : ((round (x * 10) : ℤ) : ℝ) ≤ ((round (y * 10) : ℤ) : ℝ) := Int.cast_le.2 hr
  linarith

theorem calculate_cloud_adjustment_antitone {c1 c2 : ℝ} (d : String)
    (h0 : 0 ≤ c1) (h12 : c1 ≤ c2) :
    calculate_cloud_adjustment c2 d ≤ calculate_cloud_adjustment c1 d := by
  unfold calculate_cloud_adjustment
  have hm : 0 ≤ type_multiplier d := (type_multiplier_bounds d).1.le
  have hr : (c1 / 100) ^ (0.6 : ℝ) ≤ (c2 / 100) ^ (0.6 : ℝ) :=
    Real.rpow_le_rpow (div_nonneg h0 (by norm_num)) (by linarith) (by norm_num)
  have hb : (1 - (c2 / 100) ^ (0.6 : ℝ)) * type_multiplier d ≤
      (1 - (c1 / 100) ^ (0.6 : ℝ)) * type_multiplier d :=
    mul_le_mul_of_nonneg_right (by linarith) hm
  exact max_le_max (le_refl _) (min_le_min (le_refl _) hb)

/-- C5: holding the location, instant (hence sun altitude), temperature and
description fixed, the engine is monotonically non-increasing in the cloud
cover percentage over [0, 100].  The hypothesis on the sun altitude is the
range of the ephem output the instant determines (altitude at most 90
degrees). -/
theorem estimateUV_antitone_in_cloud_cover (sun_alt : ℝ) (t : PyDateTime)
    (lat lon : ℝ) (temp : Option ℝ) (d : String) (c1 c2 : ℝ)
    (halt : sun_alt ≤ 90) (h0 : 0 ≤ c1) (h12 : c1 ≤ c2) (h100 : c2 ≤ 100) :
    calculate_uv_index_with_clouds sun_alt t lat lon c2 temp d ≤
      calculate_uv_index_with_clouds sun_alt t lat lon c1 temp d := by
  unfold calculate_uv_index_with_clouds
  have hbase := calculate_base_uv_index_nonneg sun_alt t halt
  have hreg := (regional_adjustment_bounds lat lon t temp).1.le
  have hadj := calculate_cloud_adjustment_antitone d h0 h12
  apply max_le_max (le_refl _)
  apply round1_mono
  exact mul_le_mul_of_nonneg_right (mul_le_mul_of_nonneg_left hadj hbase) hreg

theorem estimateUV_antitone_in_cloud_cover_witness :
    (50 : ℝ) ≤ 90 ∧ (0 : ℝ) ≤ 20 ∧ (20 : ℝ) ≤ 80 ∧ (80 : ℝ) ≤ 100 ∧
    calculate_uv_index_with_clouds 50 ⟨2025, 7, 182, 12, 30⟩ 42.3834 (-83.3527)
        80 (some 25) "partly cloudy" ≤
      calculate_uv_index_with_clouds 50 ⟨2025, 7, 182, 12, 30⟩ 42.3834 (-83.3527)
        20 (some 25) "partly cloudy" :=
  ⟨by norm_num, by norm_num, by norm_num, by norm_num,
   estimateUV_antitone_in_cloud_cover 50 ⟨2025, 7, 182, 12, 30⟩ 42.3834 (-83.3527)
     (some 25) "partly cloudy" 20 80 (by norm_num) (by norm_num) (by norm_num)
     (by norm_num)⟩

set_option maxHeartbeats 1000000 in
theorem month_average_uv_table_bounds (m : ℕ) :
    0 ≤ month_average_uv_table m ∧ month_average_uv_table m ≤ 12 := by
  unfold month_average_uv_table
  split_ifs <;> norm_num

/-- C2: when the solar geometry computation fails (tagged here as a `none`
geometry outcome, e.g. latitude 999), the engine boundary does not propagate
the failure: it returns the month-indexed average UV table entry dampened by
the simplified cloud/rain penalty, and that value lies in [0, 12].  The
fallback itself is modelled from the spec, since the module `app.py` imports
the engine from is not among the provided sources. -/
theorem uv_engine_geometry_fallback_range (now : PyDateTime)
    (lat lon cloud : ℝ) (temp : Option ℝ) (d : String)
    (h0 : 0 ≤ cloud) (h1 : cloud ≤ 100) :
    calculate_uv_index_with_clouds_total none now lat lon cloud temp d =
      month_average_uv_table now.month * simplified_cloud_rain_penalty cloud d ∧
    0 ≤ calculate_uv_index_with_clouds_total none now lat lon cloud temp d ∧
    calculate_uv_index_with_clouds_total none now lat lon cloud temp d ≤ 12 := by
  have htab := month_average_uv_table_bounds now.month
  have hpen : 0 ≤ simplified_cloud_rain_penalty cloud d ∧
      simplified_cloud_rain_penalty cloud d ≤ 1 := by
    unfold simplified_cloud_rain_penalty
    split_ifs <;> constructor <;> nlinarith
  refine ⟨rfl, mul_nonneg htab.1 hpen.1, ?_⟩
  calc month_average_uv_table now.month * simplified_cloud_rain_penalty cloud d ≤
      12 * 1 := mul_le_mul htab.2 hpen.2 hpen.1 (by norm_num)
    _ = 12 := by norm_num

theorem uv_engine_geometry_fallback_range_witness :
    (0 : ℝ) ≤ 100 ∧ (100 : ℝ) ≤ 100 ∧
    0 ≤ calculate_uv_index_with_clouds_total none ⟨2025, 1, 15, 12, 0⟩ 999 0 100
        none "thunderstorm" ∧
    calculate_uv_index_with_clouds_total none ⟨2025, 1, 15, 12, 0⟩ 999 0 100
        none "thunderstorm" ≤ 12 :=
  ⟨by norm_num, by norm_num,
   (uv_engine_geometry_fallback_range ⟨2025, 1, 15, 12, 0⟩ 999 0 100 none
      "thunderstorm" (by norm_num) (by norm_num)).2.1,
   (uv_engine_geometry_fallback_range ⟨2025, 1, 15, 12, 0⟩ 999 0 100 none
      "thunderstorm" (by norm_num) (by norm_num)).2.2⟩

theorem cos_radians_forty_ge : (0.7 : ℝ) ≤ Real.cos (radians 40) := by
  have hpi := Real.pi_pos
  have h0 : 0 ≤ radians 40 := by
    unfold radians
    positivity
  have h1 : radians 40 ≤ Real.pi / 4 := by
    unfold radians
    nlinarith
  have h2 : Real.cos (Real.pi / 4) ≤ Real.cos (radians 40) :=
    Real.cos_le_cos_of_nonneg_of_le_pi h0 (by nlinarith) h1
  have h3 : Real.cos (Real.pi / 4) = Real.sqrt 2 / 2 := Real.cos_pi_div_four
  have h4 : (1.4 : ℝ) ≤ Real.sqrt 2 := by
    nlinarith [Real.sq_sqrt (show (0 : ℝ) ≤ 2 by norm_num), Real.sqrt_nonneg 2]
  linarith

theorem cos_radians_forty_rpow_ge : (0.49 : ℝ) ≤ Real.cos (radians 40) ^ alpha := by
  have h07 := cos_radians_forty_ge
  have hle1 : Real.cos (radians 40) ≤ 1 := Real.cos_le_one _
  have hpos : (0 : ℝ) < Real.cos (radians 40) := by linarith
  have h2 : Real.cos (radians 40) ^ (2 : ℝ) ≤ Real.cos (radians 40) ^ alpha := by
    unfold alpha
    exact Real.rpow_le_rpow_of_exponent_ge hpos hle1 (by norm_num)
  have h3 : Real.cos (radians 40) ^ (2 : ℝ) =
      Real.cos (radians 40) * Real.cos (radians 40) := by
    rw [show (2 : ℝ) = ((2 : ℕ) : ℝ) by norm_num, Real.rpow_natCast, pow_two]
  rw [h3] at h2
  nlinarith [h2, mul_self_nonneg (Real.cos (radians 40) - 0.7)]

theorem type_multiplier_empty : type_multiplier "" = 1.0 := by
  unfold type_multiplier
  rw [if_neg (by decide), if_neg (by decide), if_neg (by decide)]

theorem cloud_adjustment_zero_empty : calculate_cloud_adjustment 0 "" = 1 := by
  have h0 : ((0 : ℝ) / 100) ^ (0.6 : ℝ) = 0 := by
    rw [show ((0 : ℝ) / 100) = 0 by norm_num, Real.zero_rpow (by norm_num)]
  unfold calculate_cloud_adjustment
  rw [h0, type_multiplier_empty]
  norm_num

theorem regional_adjustment_far_july (t : PyDateTime) (h7 : t.month = 7) :
    calculate_regional_adjustment 10 20 t none = 0.95 := by
  have hdist : 1 ≤ distance_to_detroit_center 10 20 := by
    unfold distance_to_detroit_center
    rw [show (1 : ℝ) = Real.sqrt 1 from Real.sqrt_one.symm]
    apply Real.sqrt_le_sqrt
    norm_num
  have hurban : urban_factor 10 20 = 1.0 := by
    unfold urban_factor
    rw [if_neg (not_lt.2 (by linarith)), if_neg (not_lt.2 (by linarith))]
  have hwinter : winter_factor t.month = 1.0 := by
    rw [h7]
    unfold winter_factor
    rw [if_neg (by norm_num), if_neg (by norm_num)]
  unfold calculate_regional_adjustment great_lakes_factor temp_factor
  rw [hwinter, hurban]
  norm_num

/-- C1 evidence: the engine is not a pure function of the caller-supplied
tuple (latitude, longitude, cloudCoverPercent, temperature,
weatherDescription).  The source reads the clock internally
(`datetime.datetime.now()` on line 22), so two invocations with identical
caller-supplied inputs but different internal clock reads — 12:30 versus
20:00 on the same day, with the same sun-altitude input — return different
values: a positive index at midday and exactly 0 in the evening, because the
time-of-day bell curve vanishes beyond 6 hours from 12.5 h. -/
theorem uv_engine_hidden_clock_dependence :
    calculate_uv_index_with_clouds 50 ⟨2025, 7, 182, 12, 30⟩ 10 20 0 none "" ≠
      calculate_uv_index_with_clouds 50 ⟨2025, 7, 182, 20, 0⟩ 10 20 0 none "" := by
  have htime2 : time_adjustment ⟨2025, 7, 182, 20, 0⟩ = 0 := by
    have harg : hours_since_midnight ⟨2025, 7, 182, 20, 0⟩ - 12.5 = 7.5 := by
      norm_num [hours_since_midnight]
    unfold time_adjustment
    rw [harg, abs_of_pos (by norm_num), if_pos (show (7.5 : ℝ) > 6 by norm_num)]
  have hbase2 : calculate_base_uv_index 50 ⟨2025, 7, 182, 20, 0⟩ = 0 := by
    unfold calculate_base_uv_index
    rw [if_neg (show ¬((90 : ℝ) - 50 ≥ 90) by norm_num),
      if_pos (show (90 : ℝ) - 50 < 75 by norm_num), htime2]
    ring
  have hR : calculate_uv_index_with_clouds 50 ⟨2025, 7, 182, 20, 0⟩ 10 20 0 none "" = 0 := by
    unfold calculate_uv_index_with_clouds
    rw [hbase2, zero_mul, zero_mul, round1_zero, max_self]
  have htime1 : time_adjustment ⟨2025, 7, 182, 12, 30⟩ = 1 := by
    have harg : hours_since_midnight ⟨2025, 7, 182, 12, 30⟩ - 12.5 = 0 := by
      norm_num [hours_since_midnight]
    unfold time_adjustment
    rw [harg, abs_zero, if_neg (show ¬((0 : ℝ) > 6) by norm_num), zero_mul,
      zero_div, Real.cos_zero, one_pow]
  have hbase1 : (1.6 : ℝ) ≤ calculate_base_uv_index 50 ⟨2025, 7, 182, 12, 30⟩ := by
    have hP := cos_radians_forty_rpow_ge
    have hS := seasonal_adjustment_ge ⟨2025, 7, 182, 12, 30⟩
    have hPS : (0.49 : ℝ) * 0.3 ≤
        Real.cos (radians 40) ^ alpha * seasonal_adjustment ⟨2025, 7, 182, 12, 30⟩ :=
      mul_le_mul hP hS (by norm_num) (le_trans (by norm_num) hP)
    unfold calculate_base_uv_index
    rw [if_neg (show ¬((90 : ℝ) - 50 ≥ 90) by norm_num),
      if_pos (show (90 : ℝ) - 50 < 75 by norm_num), htime1,
      show ((90 : ℝ) - 50) = 40 by norm_num]
    unfold uv_max altitude_adjustment
    nlinarith [hPS]
  have hreg1 : calculate_regional_adjustment 10 20 ⟨2025, 7, 182, 12, 30⟩ none = 0.95 :=
    regional_adjustment_far_july ⟨2025, 7, 182, 12, 30⟩ rfl
  have hL : (1.5 : ℝ) ≤
      calculate_uv_index_with_clouds 50 ⟨2025, 7, 182, 12, 30⟩ 10 20 0 none "" := by
    unfold calculate_uv_index_with_clouds
    rw [cloud_adjustment_zero_empty, hreg1, mul_one]
    have hprod : (1.52 : ℝ) ≤ calculate_base_uv_index 50 ⟨2025, 7, 182, 12, 30⟩ * 0.95 := by
      nlinarith [hbase1]
    have hx : (1.5 : ℝ) ≤ round1 (calculate_base_uv_index 50 ⟨2025, 7, 182, 12, 30⟩ * 0.95) := by
      unfold round1
      have hfl : (15 : ℤ) ≤ round (calculate_base_uv_index 50 ⟨2025, 7, 182, 12, 30⟩ * 0.95 * 10) := by
        rw [round_eq]
        apply Int.le_floor.2
        push_cast
        nlinarith [hprod]
      have hcast : ((15 : ℤ) : ℝ) ≤
          ((round (calculate_base_uv_index 50 ⟨2025, 7, 182, 12, 30⟩ * 0.95 * 10) : ℤ) : ℝ) :=
        Int.cast_le.2 hfl
      push_cast at hcast
      linarith
    exact le_trans hx (le_max_right _ _)
  rw [hR]
  exact ne_of_gt (lt_of_lt_of_le (by norm_num) hL)
